import Mathlib

/-!
Verification of the docker registry server/proxy against its specification.

The source is embedded shallowly: pure fragments of the Rust code become
Lean functions, filesystem effects become explicit state passing or event
traces, byte streams become lists of `Except`-wrapped chunks.  Definitions
are transcribed from the Rust source (`src/data/helpers.rs`,
`src/data/uploads.rs`, `src/data/manifests.rs`, `src/controllers/*.rs`,
`src/docker_client/*.rs`, `src/main.rs`); where a claim compares against
the specification's wording, a second definition carries the prefix
`spec_`.
-/

/-! ## String primitives mirroring Rust `str` operations -/

/-- Rust `str::starts_with(pat)`: byte-prefix test. -/
def strStartsWith (s pat : String) : Bool :=
  pat.data.isPrefixOf s.data

/-- Rust `str::contains(pat)`: substring test. -/
def strContains : List Char → List Char → Bool
  | [], pat => pat.isEmpty
  | c :: rest, pat => pat.isPrefixOf (c :: rest) || strContains rest pat

/-- Code points of Rust `char::is_whitespace` (Unicode `White_Space`). -/
def rustWhitespaceCodes : List Nat :=
  [0x09, 0x0A, 0x0B, 0x0C, 0x0D, 0x20, 0x85, 0xA0, 0x1680,
   0x2000, 0x2001, 0x2002, 0x2003, 0x2004, 0x2005, 0x2006, 0x2007,
   0x2008, 0x2009, 0x200A, 0x2028, 0x2029, 0x202F, 0x205F, 0x3000]

/-- Rust `char::is_whitespace`. -/
def rustIsWhitespace (c : Char) : Bool :=
  rustWhitespaceCodes.contains c.toNat

/-- Rust `str::trim`: strip whitespace from both ends. -/
def rustTrim (s : List Char) : List Char :=
  ((s.dropWhile rustIsWhitespace).reverse.dropWhile rustIsWhitespace).reverse

/-! ## Error type (`src/controllers/mod.rs`, `RegistryHttpError`) -/

/-- Errors of `RegistryHttpError` in `src/controllers/mod.rs`.  The
`eyre::Report` payload of `RegistryInternalError` is abstracted to a
string label. -/
inductive RegistryHttpError where
  | InvalidRepositoryName : String → RegistryHttpError
  | InvalidTagName : String → RegistryHttpError
  | InvalidHashFormat : String → RegistryHttpError
  | UploadIdNotFound : String → RegistryHttpError
  | ManifestNotFound : String → String → RegistryHttpError
  | RegistryInternalError : String → RegistryHttpError
deriving DecidableEq

instance {ε α : Type} [DecidableEq ε] [DecidableEq α] : DecidableEq (Except ε α) := fun x y =>
  match x, y with
  | Except.ok a, Except.ok b =>
    if h : a = b then isTrue (by rw [h])
    else isFalse (by intro hh; cases hh; exact h rfl)
  | Except.ok _, Except.error _ => isFalse (by intro hh; cases hh)
  | Except.error _, Except.ok _ => isFalse (by intro hh; cases hh)
  | Except.error e, Except.error f =>
    if h : e = f then isTrue (by rw [h])
    else isFalse (by intro hh; cases hh; exact h rfl)

/-! ## Reference validation (`src/data/helpers.rs`) -/

/-- `ref_is_valid` from `src/data/helpers.rs`: the reference must not
contain `..` and must not be blank after trimming. -/
def ref_is_valid (rref : String) : Bool :=
  !(strContains rref.data ['.', '.']) && !(rustTrim rref.data).isEmpty

/-- `reject_invalid_container_refs` from `src/data/helpers.rs`. -/
def reject_invalid_container_refs (container_ref : String) :
    Except RegistryHttpError Unit :=
  if !(ref_is_valid container_ref) then
    Except.error (RegistryHttpError.InvalidRepositoryName container_ref)
  else
    Except.ok ()

/-- `reject_invalid_tags_refs` from `src/data/helpers.rs`. -/
def reject_invalid_tags_refs (tag : String) :
    Except RegistryHttpError Unit :=
  if !(ref_is_valid tag) then
    Except.error (RegistryHttpError.InvalidTagName tag)
  else
    Except.ok ()

/-! ## Path resolver (`RegistryPathsHelper`, `src/data/helpers.rs`)

Paths are modelled as lists of components; `PathBuf::join` with a
single-component string appends one component. -/

/-- `Path::join` with a single path component. -/
def pathJoin (p : List String) (component : String) : List String :=
  p ++ [component]

/-- `RegistryPathsHelper::blob_path`. -/
def blob_path (registry_path : List String) (container_ref hash : String) :
    List String :=
  pathJoin (pathJoin (pathJoin (pathJoin registry_path container_ref)
    "_repository") "blobs") hash

/-- `RegistryPathsHelper::temporary_blob_path`. -/
def temporary_blob_path (temp_path : List String) (upload_id : String) :
    List String :=
  pathJoin (pathJoin temp_path "blobs") upload_id

/-- `RegistryPathsHelper::manifest_path`. -/
def manifest_path (registry_path : List String) (container_ref manifest_ref : String) :
    List String :=
  pathJoin (pathJoin (pathJoin (pathJoin registry_path container_ref)
    "_repository") "manifests") manifest_ref

/-- `RegistryPathsHelper::manifest_meta`. -/
def manifest_meta (registry_path : List String) (container_ref manifest_ref : String) :
    List String :=
  pathJoin (pathJoin (pathJoin (pathJoin registry_path container_ref)
    "_repository") "meta") manifest_ref

/-- Modelled from the spec: the documented blob layout
`<registry_storage>/<repository>/blobs/<digest>` with no other
intermediate path components (spec section 6, filesystem layout). -/
def spec_blob_path (registry_path : List String) (container_ref hash : String) :
    List String :=
  registry_path ++ [container_ref, "blobs", hash]

/-! ## Theorems for C10 and C4 -/

/-- C10: a repository name or tag passes validation exactly when it does
not contain the substring `..` and is not empty after trimming
whitespace; slashes and colons are accepted, and the outcome depends on
the string alone. -/
theorem ref_validation_iff : ∀ r : String,
    (reject_invalid_container_refs r = Except.ok () ↔
      (strContains r.data ['.', '.'] = false ∧ (rustTrim r.data).isEmpty = false))
    ∧ (reject_invalid_tags_refs r = Except.ok () ↔
      (strContains r.data ['.', '.'] = false ∧ (rustTrim r.data).isEmpty = false))
    ∧ reject_invalid_container_refs "library/ubuntu:latest" = Except.ok ()
    ∧ reject_invalid_tags_refs "v1.2.3" = Except.ok () := by
  intro r
  refine ⟨?_, ?_, by rfl, by rfl⟩ <;>
  · constructor
    · intro h
      by_cases hval : ref_is_valid r = true
      · have := hval
        simp only [ref_is_valid, Bool.and_eq_true, Bool.not_eq_true'] at this
        exact ⟨this.1, this.2⟩
      · simp [reject_invalid_container_refs, reject_invalid_tags_refs, hval] at h
    · intro ⟨h1, h2⟩
      have hval : ref_is_valid r = true := by
        simp [ref_is_valid, h1, h2]
      simp [reject_invalid_container_refs, reject_invalid_tags_refs, hval]

/-- C4 counterexample: the resolver inserts a literal `_repository`
component, so the produced blob path differs from the documented
`<registry_storage>/<repository>/blobs/<digest>` layout. -/
theorem blob_path_layout_counterexample :
    blob_path ["storage"] "repo" "d0" ≠ spec_blob_path ["storage"] "repo" "d0"
    ∧ blob_path ["storage"] "repo" "d0"
      = ["storage", "repo", "_repository", "blobs", "d0"] := by
  constructor
  · decide
  · rfl

/-- C4 amended: the resolver produces the documented layout with one
extra literal `_repository` component between the repository and the
category directory for blobs, manifests and metadata; temporary upload
files live at `<temporary_registry_storage>/blobs/<upload-id>` as
documented. -/
theorem registry_paths_layout :
    ∀ (root temp : List String) (repo x : String),
      blob_path root repo x = root ++ [repo, "_repository", "blobs", x]
      ∧ manifest_path root repo x = root ++ [repo, "_repository", "manifests", x]
      ∧ manifest_meta root repo x = root ++ [repo, "_repository", "meta", x]
      ∧ temporary_blob_path temp x = temp ++ ["blobs", x] := by
  intro root temp repo x
  refine ⟨?_, ?_, ?_, ?_⟩ <;>
    simp [blob_path, manifest_path, manifest_meta, temporary_blob_path, pathJoin]

/-! ## Manifest digest computation (`src/data/manifests.rs`)

`Manifest::new` pre-seeds `docker_hash` with the reference when the
reference itself is a digest; `save_manifest` otherwise computes
`sha256:<hex>` of the streamed body after the stream is exhausted.  The
sha256 hex of the body is an opaque parameter `body_sha256_hex`. -/

/-- `Manifest::new`: the initial `docker_hash` field. -/
def manifest_initial_docker_hash (manifest_reference : String) : Option String :=
  if strStartsWith manifest_reference "sha256:" then some manifest_reference
  else none

/-- The `docker_hash` value held after `Manifest::save_manifest` ran:
either the digest-shaped reference itself, or `sha256:` prepended to the
hex digest of the streamed body. -/
def save_manifest_docker_hash (manifest_reference body_sha256_hex : String) : String :=
  match manifest_initial_docker_hash manifest_reference with
  | some h => h
  | none => "sha256:" ++ body_sha256_hex

/-- The `Docker-Content-Digest` header value produced by
`upload_manifest` in `src/controllers/manifests.rs`
(`format!("sha256:{}", manifest.docker_hash()?)`). -/
def upload_manifest_digest_header (manifest_reference body_sha256_hex : String) : String :=
  "sha256:" ++ save_manifest_docker_hash manifest_reference body_sha256_hex

/-- The `Docker-Content-Digest` header value produced by
`finalize_blob_upload` in `src/controllers/uploads.rs`: the
caller-supplied digest string is echoed verbatim. -/
def finalize_blob_upload_digest_header (docker_digest : String) : String :=
  docker_digest

/-- C5: on a successful manifest PUT the code prepends `sha256:` to a
`docker_hash` that already carries the prefix, so the header reads
`sha256:sha256:<hex>` — the algorithm prefix appears twice, both for a
tag reference and for a digest reference, contradicting the claimed
`sha256:<hex>` form. -/
theorem upload_manifest_double_digest_header :
    upload_manifest_digest_header "latest" "ab12" = "sha256:sha256:ab12"
    ∧ upload_manifest_digest_header "sha256:ab12" "ab12" = "sha256:sha256:ab12"
    ∧ upload_manifest_digest_header "latest" "ab12" ≠ "sha256:" ++ "ab12"
    ∧ finalize_blob_upload_digest_header "sha256:ab12" = "sha256:ab12" := by
  refine ⟨by rfl, by rfl, by decide, by rfl⟩

/-! ## Manifest fetch (`fetch_manifest`, `src/controllers/manifests.rs`)

The two files the handler consults are passed as explicit state: the
reference-named manifest content file and the parsed sidecar metadata
file (`None` models an absent file). -/

/-- The `{hash, content_type}` sidecar record (`ManifestMetadata`). -/
structure ManifestMetadata where
  hash : String
  content_type : String
deriving DecidableEq

/-- A response at the handler boundary: header list plus body bytes. -/
structure ManifestFetchResponse where
  headers : List (String × String)
  body : List Nat
deriving DecidableEq

/-- `fetch_manifest` from `src/controllers/manifests.rs`: validates both
references, opens the manifest file (absent → `ManifestNotFound`), then
reads the sidecar with `tokio::fs::read_to_string` whose error is
converted by `?` into `RegistryInternalError`. -/
def fetch_manifest (container_ref manifest_ref : String)
    (manifest_file : Option (List Nat)) (meta_file : Option ManifestMetadata) :
    Except RegistryHttpError ManifestFetchResponse :=
  match reject_invalid_container_refs container_ref with
  | Except.error e => Except.error e
  | Except.ok _ =>
    match reject_invalid_tags_refs manifest_ref with
    | Except.error e => Except.error e
    | Except.ok _ =>
      match manifest_file with
      | none => Except.error (RegistryHttpError.ManifestNotFound container_ref manifest_ref)
      | some content =>
        match meta_file with
        | none => Except.error (RegistryHttpError.RegistryInternalError "io")
        | some meta =>
          Except.ok
            { headers := [("Docker-Content-Digest", "sha256:" ++ meta.hash),
                          ("Content-Type", meta.content_type),
                          ("Content-Length", toString content.length)],
              body := content }

/-- C6 counterexample: with the manifest content file present but the
sidecar metadata file absent, the fetch fails with an internal error,
not with `ManifestNotFound` as the claim requires for either absent
file. -/
theorem fetch_manifest_missing_meta_counterexample :
    fetch_manifest "c" "r" (some [1]) none
      = Except.error (RegistryHttpError.RegistryInternalError "io")
    ∧ fetch_manifest "c" "r" (some [1]) none
      ≠ Except.error (RegistryHttpError.ManifestNotFound "c" "r") := by
  exact ⟨by rfl, by decide⟩

/-- C6 amended: for valid references, the fetch fails with
`ManifestNotFound{repository, reference}` exactly when the
reference-named manifest content file is absent; when the content file
is present but the sidecar metadata file is absent, the fetch fails with
an internal error instead. -/
theorem fetch_manifest_not_found_amended :
    ∀ (c r : String) (mf : Option (List Nat)) (meta : Option ManifestMetadata),
      ref_is_valid c = true → ref_is_valid r = true →
      ((fetch_manifest c r mf meta
          = Except.error (RegistryHttpError.ManifestNotFound c r)) ↔ mf = none)
      ∧ (mf ≠ none → meta = none →
          fetch_manifest c r mf meta
            = Except.error (RegistryHttpError.RegistryInternalError "io")) := by
  intro c r mf meta hc hr
  have hcv : reject_invalid_container_refs c = Except.ok () := by
    simp [reject_invalid_container_refs, hc]
  have hrv : reject_invalid_tags_refs r = Except.ok () := by
    simp [reject_invalid_tags_refs, hr]
  constructor
  · constructor
    · intro h
      cases mf with
      | none => rfl
      | some content =>
        cases meta with
        | none => simp [fetch_manifest, hcv, hrv] at h
        | some m => simp [fetch_manifest, hcv, hrv] at h
    · intro h
      subst h
      simp [fetch_manifest, hcv, hrv]
  · intro hmf hmeta
    cases mf with
    | none => exact absurd rfl hmf
    | some content =>
      subst hmeta
      simp [fetch_manifest, hcv, hrv]

/-- C6 witness: the amended theorem applied at concrete inputs. -/
theorem fetch_manifest_not_found_amended_witness :
    ref_is_valid "c" = true ∧ ref_is_valid "r" = true
    ∧ ((fetch_manifest "c" "r" none none
        = Except.error (RegistryHttpError.ManifestNotFound "c" "r")) ↔
          (none : Option (List Nat)) = none)
    ∧ ((some [1] : Option (List Nat)) ≠ none →
        (none : Option ManifestMetadata) = none →
        fetch_manifest "c" "r" (some [1]) none
          = Except.error (RegistryHttpError.RegistryInternalError "io")) :=
  ⟨by rfl, by rfl,
   (fetch_manifest_not_found_amended "c" "r" none none (by rfl) (by rfl)).1,
   (fetch_manifest_not_found_amended "c" "r" (some [1]) none (by rfl) (by rfl)).2⟩

/-! ## Upload append (`Upload::write_blob`, `src/data/uploads.rs`)

The session's temporary file is modelled as `Option (List Nat)` (absent
or its byte content).  `write_blob` opens the file with
`tokio::fs::File::open` — read-only — when it already exists, and with
`File::create` — writable, empty — when it does not; it then seeks to
the end, writes each chunk of the body stream with `write_all`, and
returns the final seek position.  The body stream is a list of chunk
results (`chunk?` re-raises per-chunk extraction errors). -/

/-- The mode a file handle was opened with. -/
inductive FileMode where
  | readOnly
  | writable
deriving DecidableEq

/-- Errors surfaced by `write_blob`. -/
inductive WriteBlobError where
  | writeIo
  | streamErr
deriving DecidableEq

/-- `write_all` on a file handle: writing a non-empty buffer to a handle
opened read-only fails with an I/O error (`EBADF`); an empty buffer
issues no syscall. -/
def write_all (mode : FileMode) (content chunk : List Nat) :
    Except WriteBlobError (List Nat) :=
  if chunk.isEmpty then Except.ok content
  else
    match mode with
    | FileMode.readOnly => Except.error WriteBlobError.writeIo
    | FileMode.writable => Except.ok (content ++ chunk)

/-- The chunk loop of `write_blob`: file content so far, remaining
stream items; returns the final on-disk content and the first error, if
any.  Writes already performed stay on disk. -/
def write_blob_loop (mode : FileMode) :
    List Nat → List (Except Unit (List Nat)) → List Nat × Option WriteBlobError
  | content, [] => (content, none)
  | content, Except.error _ :: _ => (content, some WriteBlobError.streamErr)
  | content, Except.ok chunk :: rest =>
    match write_all mode content chunk with
    | Except.error e => (content, some e)
    | Except.ok c => write_blob_loop mode c rest

/-- `Upload::write_blob`: returns the resulting temp-file content and
either the final size (`seek(End)` position) or the first error. -/
def write_blob (existing : Option (List Nat))
    (layer : List (Except Unit (List Nat))) :
    Option (List Nat) × Except WriteBlobError Nat :=
  let mode := match existing with
    | some _ => FileMode.readOnly
    | none => FileMode.writable
  let content := existing.getD []
  match write_blob_loop mode content layer with
  | (final, none) => (some final, Except.ok final.length)
  | (final, some e) => (some final, Except.error e)

/-- C1: the first append on a fresh session writes its chunks and
returns the size, but a second append in a later request opens the
now-existing temp file read-only, so the write of `b2` fails with an I/O
error and the file still contains only `b1` — the append never happens,
contradicting the claimed resumability. -/
theorem write_blob_second_call_fails_code_bug :
    write_blob none [Except.ok [1]] = (some [1], Except.ok 1)
    ∧ write_blob (some [1]) [Except.ok [2]]
      = (some [1], Except.error WriteBlobError.writeIo)
    ∧ (write_blob (some [1]) [Except.ok [2]]).1 ≠ some [1, 2] := by
  exact ⟨by rfl, by rfl, by decide⟩

/-! ## Blob proxy (`proxy_blob`, `src/controllers/blobs.rs`)

The cache file at the final digest-derived path is `Option (List Nat)`.
On a miss the handler runs `tokio::fs::File::create(&blob_path)` — the
final path, not a temp name — and then drives a `stream::unfold` tee
that appends each upstream chunk to that file and forwards it
downstream; a chunk-extraction or write failure is forwarded downstream
as an error item and nothing deletes the file. -/

/-- Result of an upstream `query_blob` call. -/
inductive UpstreamBlobResult where
  | success : Nat → List (Except Unit (List Nat)) → UpstreamBlobResult
  | status404 : UpstreamBlobResult
  | failure : String → UpstreamBlobResult

/-- Outcome of `proxy_blob` at the handler boundary. -/
structure ProxyBlobResult where
  status : Nat
  cache_file : Option (List Nat)
  headers : List (String × String)
  downstream : List (Except Unit (List Nat))
  upstream_contacted : Bool
deriving DecidableEq

/-- The `stream::unfold` tee of `proxy_blob`: chunk index, file content
so far, remaining upstream items; returns the final cache-file content
and the downstream items produced.  `writeOk i` tells whether the
cache-file write of chunk `i` succeeds. -/
def proxy_blob_tee (writeOk : Nat → Bool) :
    Nat → List Nat → List (Except Unit (List Nat)) →
    List Nat × List (Except Unit (List Nat))
  | _, file, [] => (file, [])
  | _, file, Except.error _ :: _ => (file, [Except.error ()])
  | i, file, Except.ok chunk :: rest =>
    if writeOk i then
      let r := proxy_blob_tee writeOk (i + 1) (file ++ chunk) rest
      (r.1, Except.ok chunk :: r.2)
    else
      (file, [Except.error ()])

/-- True when driving the tee over the stream hits a mid-stream failure
(a chunk-extraction error or a failing cache-file write). -/
def streamFails (writeOk : Nat → Bool) : Nat → List (Except Unit (List Nat)) → Bool
  | _, [] => false
  | _, Except.error _ :: _ => true
  | i, Except.ok _ :: rest =>
    if writeOk i then streamFails writeOk (i + 1) rest else true

/-- True when the downstream item list ends with an error item. -/
def downstreamEndsWithError (ds : List (Except Unit (List Nat))) : Bool :=
  match ds.getLast? with
  | some (Except.error _) => true
  | _ => false

/-- `proxy_blob` from `src/controllers/blobs.rs`: cached content, the
upstream response, and the per-chunk cache-write outcomes determine the
response and the final cache-file state. -/
def proxy_blob (cached : Option (List Nat)) (upstream : UpstreamBlobResult)
    (writeOk : Nat → Bool) : Except RegistryHttpError ProxyBlobResult :=
  match cached with
  | some c =>
    Except.ok
      { status := 200, cache_file := some c,
        headers := [("Content-Type", "application/octet-stream"),
                    ("Content-Length", toString c.length),
                    ("Proxy-Docker-Cache", "HIT")],
        downstream := [Except.ok c], upstream_contacted := false }
  | none =>
    match upstream with
    | UpstreamBlobResult.success content_length stream =>
      let tee := proxy_blob_tee writeOk 0 [] stream
      Except.ok
        { status := 200, cache_file := some tee.1,
          headers := [("Content-Type", "application/octet-stream"),
                      ("Content-Length", toString content_length),
                      ("Proxy-Docker-Cache", "MISS")],
          downstream := tee.2, upstream_contacted := true }
    | UpstreamBlobResult.status404 =>
      Except.ok
        { status := 404, cache_file := none, headers := [],
          downstream := [], upstream_contacted := true }
    | UpstreamBlobResult.failure e =>
      Except.error (RegistryHttpError.RegistryInternalError e)

/-- C2 counterexample: a cache miss whose upstream stream delivers one
chunk and then fails leaves the partially written file at the final
digest-derived cache path (the path a later cache-hit check tests),
while the downstream body ends with an error — the claim says the final
cache path must not exist after a mid-stream failure. -/
theorem proxy_blob_partial_file_counterexample :
    proxy_blob none (UpstreamBlobResult.success 2 [Except.ok [7], Except.error ()])
        (fun _ => true)
      = Except.ok
          { status := 200, cache_file := some [7],
            headers := [("Content-Type", "application/octet-stream"),
                        ("Content-Length", "2"),
                        ("Proxy-Docker-Cache", "MISS")],
            downstream := [Except.ok [7], Except.error ()],
            upstream_contacted := true }
    ∧ (proxy_blob none
        (UpstreamBlobResult.success 2 [Except.ok [7], Except.error ()])
        (fun _ => true)).toOption.map ProxyBlobResult.cache_file ≠ some none := by
  exact ⟨by rfl, by decide⟩

/-- C2 amended: on a cache miss with a 2xx upstream response the cache
file is created directly at the final digest-derived path before
streaming; if extracting a chunk or writing it to the cache file fails
mid-stream, the downstream response does fail with an error, but the
partially written file remains at the final cache path where a later
cache-hit check will find it. -/
theorem proxy_blob_miss_cache_file_persists :
    ∀ (content_length : Nat) (stream : List (Except Unit (List Nat)))
      (writeOk : Nat → Bool),
      streamFails writeOk 0 stream = true →
      ∃ r, proxy_blob none (UpstreamBlobResult.success content_length stream) writeOk
            = Except.ok r
        ∧ r.upstream_contacted = true
        ∧ r.cache_file = some (proxy_blob_tee writeOk 0 [] stream).1
        ∧ r.cache_file.isSome = true
        ∧ downstreamEndsWithError r.downstream = true := by
  intro content_length stream writeOk hfail
  refine ⟨_, rfl, rfl, rfl, rfl, ?_⟩
  show downstreamEndsWithError (proxy_blob_tee writeOk 0 [] stream).2 = true
  suffices h : ∀ (s : List (Except Unit (List Nat))) (i : Nat) (file : List Nat),
      streamFails writeOk i s = true →
      downstreamEndsWithError (proxy_blob_tee writeOk i file s).2 = true by
    exact h stream 0 [] hfail
  intro s
  induction s with
  | nil => intro i file h; simp [streamFails] at h
  | cons item rest ih =>
    intro i file h
    cases item with
    | error e => simp [proxy_blob_tee, downstreamEndsWithError]
    | ok chunk =>
      by_cases hw : writeOk i = true
      · have hrest : streamFails writeOk (i + 1) rest = true := by
          simpa [streamFails, hw] using h
        have htail := ih (i + 1) (file ++ chunk) hrest
        cases htl : (proxy_blob_tee writeOk (i + 1) (file ++ chunk) rest).2 with
        | nil => rw [htl] at htail; simp [downstreamEndsWithError] at htail
        | cons b l =>
          rw [htl] at htail
          simp only [proxy_blob_tee, hw, if_true]
          simpa [downstreamEndsWithError, htl, List.getLast?_cons_cons] using htail
      · simp only [proxy_blob_tee, Bool.not_eq_true] at hw
        simp [proxy_blob_tee, hw, downstreamEndsWithError]

/-- C2 witness: the amended theorem applied to a concrete failing
stream. -/
theorem proxy_blob_miss_cache_file_persists_witness :
    streamFails (fun _ => true) 0 [Except.ok [7], Except.error ()] = true
    ∧ ∃ r, proxy_blob none
          (UpstreamBlobResult.success 2 [Except.ok [7], Except.error ()])
          (fun _ => true)
        = Except.ok r
      ∧ r.upstream_contacted = true
      ∧ r.cache_file
        = some (proxy_blob_tee (fun _ => true) 0 [] [Except.ok [7], Except.error ()]).1
      ∧ r.cache_file.isSome = true
      ∧ downstreamEndsWithError r.downstream = true :=
  ⟨by rfl,
   proxy_blob_miss_cache_file_persists 2 [Except.ok [7], Except.error ()]
     (fun _ => true) (by rfl)⟩

/-! ## Manifest proxy (`proxy_fetch_manifest`, `src/controllers/manifests.rs`)

The handler always issues an upstream HEAD first to learn the digest of
the reference; only then does it test the digest-named cache file, and
on a miss it GETs the body and writes the cache files.  No response of
this handler carries the `Proxy-Docker-Cache` header. -/

/-- Digest, content type and length reported by the upstream HEAD. -/
structure ManifestHeadInfo where
  hash : String
  content_type : String
  content_length : Nat
deriving DecidableEq

/-- Result of the upstream HEAD request. -/
inductive HeadResult where
  | okInfo : ManifestHeadInfo → HeadResult
  | notFound : HeadResult
  | failed : String → HeadResult

/-- Outcome of `proxy_fetch_manifest` at the handler boundary:
the upstream requests that were issued, the response headers, and
whether the digest-named cache file was (re)written. -/
structure ProxyManifestResult where
  status : Nat
  upstream_requests : List String
  headers : List (String × String)
  cache_written : Bool
deriving DecidableEq

/-- `proxy_fetch_manifest` from `src/controllers/manifests.rs`. -/
def proxy_fetch_manifest (cached_hash_file : Bool) (head : HeadResult) :
    Except RegistryHttpError ProxyManifestResult :=
  match head with
  | HeadResult.failed e => Except.error (RegistryHttpError.RegistryInternalError e)
  | HeadResult.notFound =>
    Except.ok { status := 404, upstream_requests := ["HEAD"], headers := [],
                cache_written := false }
  | HeadResult.okInfo i =>
    if cached_hash_file then
      Except.ok
        { status := 200, upstream_requests := ["HEAD"],
          headers := [("Content-Type", i.content_type),
                      ("Docker-Content-Digest", i.hash),
                      ("Content-Length", toString i.content_length)],
          cache_written := false }
    else
      Except.ok
        { status := 200, upstream_requests := ["HEAD", "GET"],
          headers := [("Content-Type", i.content_type),
                      ("Docker-Content-Digest", i.hash),
                      ("Content-Length", toString i.content_length)],
          cache_written := true }

/-- True when a header list carries the cache-status header. -/
def hasCacheStatusHeader (headers : List (String × String)) : Bool :=
  headers.any (fun h => h.1 == "Proxy-Docker-Cache")

/-- C3 counterexample: on a manifest proxy read whose digest-named cache
file is present, the handler still issues an upstream HEAD request and
the response carries no HIT/MISS cache-status header — falsifying both
the no-upstream-contact-on-hit part and the every-proxy-response-carries-
the-header part of the claim. -/
theorem proxy_manifest_no_cache_header_counterexample :
    proxy_fetch_manifest true
        (HeadResult.okInfo { hash := "sha256:aa", content_type := "ct", content_length := 3 })
      = Except.ok
          { status := 200, upstream_requests := ["HEAD"],
            headers := [("Content-Type", "ct"),
                        ("Docker-Content-Digest", "sha256:aa"),
                        ("Content-Length", "3")],
            cache_written := false }
    ∧ (["HEAD"] : List String) ≠ []
    ∧ hasCacheStatusHeader
        [("Content-Type", "ct"), ("Docker-Content-Digest", "sha256:aa"),
         ("Content-Length", "3")] = false := by
  exact ⟨by rfl, by decide, by rfl⟩

/-- C3 amended: the blob proxy behaves as claimed — a cache hit is
served from the local file with no upstream request and the header
`Proxy-Docker-Cache: HIT`, and a miss fetches the upstream body, writes
it to the cache path and carries `MISS` — but only blob proxy responses
carry the cache-status header: the manifest proxy issues an upstream
HEAD request on every read, even when the digest-named cache file
exists, and none of its responses carries the header. -/
theorem proxy_cache_status_amended :
    ∀ (c : List Nat) (u : UpstreamBlobResult) (writeOk : Nat → Bool)
      (len : Nat) (stream : List (Except Unit (List Nat)))
      (cached : Bool) (i : ManifestHeadInfo),
      proxy_blob (some c) u writeOk
        = Except.ok
            { status := 200, cache_file := some c,
              headers := [("Content-Type", "application/octet-stream"),
                          ("Content-Length", toString c.length),
                          ("Proxy-Docker-Cache", "HIT")],
              downstream := [Except.ok c], upstream_contacted := false }
      ∧ (∃ r, proxy_blob none (UpstreamBlobResult.success len stream) writeOk
            = Except.ok r
          ∧ r.upstream_contacted = true
          ∧ r.cache_file = some (proxy_blob_tee writeOk 0 [] stream).1
          ∧ hasCacheStatusHeader r.headers = true
          ∧ r.headers.contains ("Proxy-Docker-Cache", "MISS") = true)
      ∧ (∃ m, proxy_fetch_manifest cached (HeadResult.okInfo i) = Except.ok m
          ∧ m.upstream_requests ≠ []
          ∧ hasCacheStatusHeader m.headers = false) := by
  intro c u writeOk len stream cached i
  refine ⟨rfl, ⟨_, rfl, rfl, rfl, by rfl, by rfl⟩, ?_⟩
  cases cached with
  | false =>
    exact ⟨_, rfl, by simp, by rfl⟩
  | true =>
    exact ⟨_, rfl, by simp, by rfl⟩

/-! ## Manifest publish order (`Manifest::save_manifest` /
`Manifest::save_manifest_metadata`, `src/data/manifests.rs`)

The filesystem side effects of a manifest PUT are modelled as an ordered
event trace: stream body to a private temp file, create the digest
path's parent, rename the temp file onto the digest-named path, copy the
digest file to the tag-named path unless the reference is itself the
digest, then the same pattern for the metadata sidecar. -/

/-- A filesystem side effect of the manifest save path. -/
inductive FsEvent where
  | createDirAll : List String → FsEvent
  | renameFile : List String → List String → FsEvent
  | copyFile : List String → List String → FsEvent
  | writeFile : List String → FsEvent
deriving DecidableEq

/-- Whether an event leaves a fully written file at path `p`. -/
def establishesFile (e : FsEvent) (p : List String) : Bool :=
  match e with
  | FsEvent.renameFile _ dst => decide (dst = p)
  | FsEvent.writeFile q => decide (q = p)
  | _ => false

/-- Whether an event is a copy. -/
def isCopyEvent : FsEvent → Bool
  | FsEvent.copyFile _ _ => true
  | _ => false

/-- Every copy in the remaining trace reads a source some earlier event
fully established, and never copies a file onto itself.  The first
argument accumulates the events already performed. -/
def copiesSafe : List FsEvent → List FsEvent → Bool
  | _, [] => true
  | seen, FsEvent.copyFile src dst :: rest =>
    seen.any (fun e => establishesFile e src) && decide (src ≠ dst)
      && copiesSafe (FsEvent.copyFile src dst :: seen) rest
  | seen, e :: rest => copiesSafe (e :: seen) rest

/-- `Manifest::save_manifest`: the ordered filesystem events.  The
private temp file lives at `temp_file`; its streamed content has sha256
hex `body_sha256_hex`. -/
def save_manifest_trace (registry_root temp_file : List String)
    (container_ref manifest_reference body_sha256_hex : String) : List FsEvent :=
  let docker_hash := save_manifest_docker_hash manifest_reference body_sha256_hex
  let hash_path := manifest_path registry_root container_ref docker_hash
  [FsEvent.writeFile temp_file,
   FsEvent.createDirAll hash_path.dropLast,
   FsEvent.renameFile temp_file hash_path]
  ++ (if strStartsWith manifest_reference "sha256:" then []
      else [FsEvent.copyFile hash_path
              (manifest_path registry_root container_ref manifest_reference)])

/-- `Manifest::save_manifest_metadata`: the ordered filesystem events,
given the `docker_hash` computed by `save_manifest`. -/
def save_manifest_metadata_trace (registry_root : List String)
    (container_ref manifest_reference docker_hash : String) : List FsEvent :=
  let meta_hash_path := manifest_meta registry_root container_ref docker_hash
  [FsEvent.createDirAll meta_hash_path.dropLast,
   FsEvent.writeFile meta_hash_path]
  ++ (if strStartsWith manifest_reference "sha256:" then []
      else [FsEvent.copyFile meta_hash_path
              (manifest_meta registry_root container_ref manifest_reference)])

/-- The full event trace of `upload_manifest`
(`src/controllers/manifests.rs`): `save_manifest` then
`save_manifest_metadata`. -/
def upload_manifest_trace (registry_root temp_file : List String)
    (container_ref manifest_reference body_sha256_hex : String) : List FsEvent :=
  save_manifest_trace registry_root temp_file container_ref manifest_reference
    body_sha256_hex
  ++ save_manifest_metadata_trace registry_root container_ref manifest_reference
      (save_manifest_docker_hash manifest_reference body_sha256_hex)

theorem strStartsWith_append (p t : String) : strStartsWith (p ++ t) p = true := by
  unfold strStartsWith
  rw [String.data_append, List.isPrefixOf_iff_prefix]
  exact List.prefix_append _ _

theorem manifest_path_inj {root : List String} {c x y : String}
    (h : manifest_path root c x = manifest_path root c y) : x = y := by
  unfold manifest_path pathJoin at h
  simpa using List.append_cancel_left h

theorem manifest_meta_inj {root : List String} {c x y : String}
    (h : manifest_meta root c x = manifest_meta root c y) : x = y := by
  unfold manifest_meta pathJoin at h
  simpa using List.append_cancel_left h

/-- C7: in every manifest save the digest-named content file (renamed
from the private temp file) and the digest-named metadata file are
established before the respective tag-named alias is copied from them;
the tag copies happen exactly when the caller-supplied reference is not
the digest (`docker_hash`), and a reference that is the digest is
exactly one starting with `sha256:`, so a digest-named file is never
overwritten by a self-copy. -/
theorem save_manifest_alias_order :
    ∀ (root temp : List String) (c ref hex : String),
      copiesSafe [] (upload_manifest_trace root temp c ref hex) = true
      ∧ (upload_manifest_trace root temp c ref hex).any isCopyEvent
          = !(strStartsWith ref "sha256:")
      ∧ decide (ref = save_manifest_docker_hash ref hex)
          = strStartsWith ref "sha256:" := by
  intro root temp c ref hex
  by_cases hs : strStartsWith ref "sha256:" = true
  · have hd : save_manifest_docker_hash ref hex = ref := by
      simp [save_manifest_docker_hash, manifest_initial_docker_hash, hs]
    refine ⟨?_, ?_, ?_⟩
    · simp [upload_manifest_trace, save_manifest_trace,
            save_manifest_metadata_trace, hs, copiesSafe]
    · simp [upload_manifest_trace, save_manifest_trace,
            save_manifest_metadata_trace, hs, isCopyEvent]
    · simp [hd, hs]
  · have hs' : strStartsWith ref "sha256:" = false := by
      simpa using hs
    have hd : save_manifest_docker_hash ref hex = "sha256:" ++ hex := by
      simp [save_manifest_docker_hash, manifest_initial_docker_hash, hs']
    have hne : ref ≠ "sha256:" ++ hex := by
      intro he
      rw [he, strStartsWith_append] at hs'
      exact Bool.noConfusion hs'
    have hpath : manifest_path root c (save_manifest_docker_hash ref hex)
        ≠ manifest_path root c ref := by
      rw [hd]
      intro h
      exact hne (manifest_path_inj h).symm
    have hmeta : manifest_meta root c (save_manifest_docker_hash ref hex)
        ≠ manifest_meta root c ref := by
      rw [hd]
      intro h
      exact hne (manifest_meta_inj h).symm
    refine ⟨?_, ?_, ?_⟩
    · simp [upload_manifest_trace, save_manifest_trace,
            save_manifest_metadata_trace, hs', copiesSafe, establishesFile,
            hpath, hmeta]
    · simp [upload_manifest_trace, save_manifest_trace,
            save_manifest_metadata_trace, hs', isCopyEvent]
    · have : ref ≠ save_manifest_docker_hash ref hex := by
        rw [hd]; exact hne
      simp [this, hs']

/-! ## Bearer authentication
(`BearerTokenAuthStrategy::execute_authentication`,
`src/docker_client/authentication_strategies.rs`)

The HTTP exchange is abstracted to its observable pieces: the token
endpoint's status code and its parsed JSON body (`None` models a body
that fails to deserialize).  `issued_at` timestamps are integers
(parsed RFC3339 instants); `now` is the current instant. -/

/-- The mutable state of `BearerTokenAuthStrategy`. -/
structure BearerTokenAuthStrategy where
  token : Option String
  created_at : Int
  expires_in : Nat
  scope : String
deriving DecidableEq

/-- The parsed JSON body of a token response (`BearerToken`). -/
structure BearerTokenBody where
  token : String
  issued_at : Option Int
  expires_in : Option Nat
deriving DecidableEq

/-- `DockerClientError` of
`src/docker_client/authentication_strategies.rs` (reqwest transport and
deserialization failures are folded into one constructor). -/
inductive DockerClientError where
  | UnexpectedStatusCode : Nat → DockerClientError
  | BadAuthenticationCredentials : DockerClientError
  | TransportError : DockerClientError
deriving DecidableEq

/-- `BearerTokenAuthStrategy::new`: empty token, zero ttl, pull scope
for the repository. -/
def bearer_new (container_repository : String) (now : Int) :
    BearerTokenAuthStrategy :=
  { token := none, created_at := now, expires_in := 0,
    scope := "repository:" ++ container_repository ++ ":pull" }

/-- `BearerTokenAuthStrategy::execute_authentication`: status handling,
the empty/`"unauthenticated"` token quirk, and the `issued_at` /
`expires_in` defaulting.  An error leaves the caller's state untouched
(the code returns before assigning any field). -/
def execute_authentication (st : BearerTokenAuthStrategy) (status : Nat)
    (body : Option BearerTokenBody) (now : Int) :
    Except DockerClientError BearerTokenAuthStrategy :=
  if status = 401 then
    Except.error DockerClientError.BadAuthenticationCredentials
  else if status ≠ 200 then
    Except.error (DockerClientError.UnexpectedStatusCode status)
  else
    match body with
    | none => Except.error DockerClientError.TransportError
    | some tok =>
      if tok.token = "" || tok.token = "unauthenticated" then
        Except.error DockerClientError.BadAuthenticationCredentials
      else
        Except.ok
          { token := some tok.token,
            created_at := tok.issued_at.getD now,
            expires_in := tok.expires_in.getD 60,
            scope := st.scope }

/-- C8: on a 200 token response, an empty or `"unauthenticated"` token
is rejected as bad credentials and no bearer state is adopted; otherwise
the adopted state holds the token, `issued_at` defaulted to now and
`expires_in` defaulted to 60 seconds when the body omits them, and the
scope carried over from the strategy. -/
theorem bearer_token_quirk_and_defaults :
    ∀ (st : BearerTokenAuthStrategy) (b : BearerTokenBody) (now : Int),
      (b.token = "" ∨ b.token = "unauthenticated" →
        execute_authentication st 200 (some b) now
          = Except.error DockerClientError.BadAuthenticationCredentials)
      ∧ (b.token ≠ "" → b.token ≠ "unauthenticated" →
        execute_authentication st 200 (some b) now
          = Except.ok
              { token := some b.token,
                created_at := b.issued_at.getD now,
                expires_in := b.expires_in.getD 60,
                scope := st.scope }) := by
  intro st b now
  constructor
  · intro h
    have hb : (b.token = "" || b.token = "unauthenticated") = true := by
      cases h with
      | inl h1 => simp [h1]
      | inr h2 => simp [h2]
    simp [execute_authentication, hb]
  · intro h1 h2
    have hb : (b.token = "" || b.token = "unauthenticated") = false := by
      simp [h1, h2]
    simp [execute_authentication, hb]

/-- C8 witness: the theorem applied to a concrete rejected body and a
concrete accepted body. -/
theorem bearer_token_quirk_and_defaults_witness :
    execute_authentication (bearer_new "library/alpine" 0) 200
        (some { token := "unauthenticated", issued_at := none, expires_in := none }) 5
      = Except.error DockerClientError.BadAuthenticationCredentials
    ∧ execute_authentication (bearer_new "library/alpine" 0) 200
        (some { token := "tok", issued_at := none, expires_in := none }) 5
      = Except.ok
          { token := some "tok", created_at := (5 : Int), expires_in := 60,
            scope := (bearer_new "library/alpine" 0).scope } :=
  ⟨(bearer_token_quirk_and_defaults (bearer_new "library/alpine" 0)
      { token := "unauthenticated", issued_at := none, expires_in := none } 5).1
    (Or.inr rfl),
   (bearer_token_quirk_and_defaults (bearer_new "library/alpine" 0)
      { token := "tok", issued_at := none, expires_in := none } 5).2
    (by decide) (by decide)⟩

/-! ## Upload prune sweep (`src/main.rs`)

`main.rs` fixes the sweep constants and spawns a task looping
`sleep(UPLOAD_PRUNE_INTERVAL); uploads.prune()` independent of request
traffic.  The session map is modelled as a function from session id to
the `last_interacted_with` timestamp, and the temp-file store as a
predicate on ids. -/

/-- `UPLOAD_PRUNE_INTERVAL` from `src/main.rs`: seconds between
sweeps. -/
def UPLOAD_PRUNE_INTERVAL : Nat := 60

/-- `UPLOAD_PRUNE_AGE` from `src/main.rs`: maximum idle age in
seconds. -/
def UPLOAD_PRUNE_AGE : Nat := 180

/-- Modelled from the spec: the body of `UploadsStore::prune` is not
part of the sources (only its caller in `src/main.rs` is); per the spec
the sweep removes every session whose last-activity timestamp exceeds
the maximum age.  Returns the surviving session map. -/
def prune (now : Nat) (store : Nat → Option Nat) : Nat → Option Nat :=
  fun id =>
    match store id with
    | none => none
    | some last => if now - last > UPLOAD_PRUNE_AGE then none else some last

/-- Modelled from the spec: the sweep also deletes the temp files of the
removed sessions; other temp files are untouched. -/
def prune_temp_files (now : Nat) (store : Nat → Option Nat)
    (temp_file : Nat → Bool) : Nat → Bool :=
  fun id =>
    match store id with
    | none => temp_file id
    | some last => if now - last > UPLOAD_PRUNE_AGE then false else temp_file id

/-- `fetch_upload` mapped through the controllers' `ok_or_else`: a
missing session id yields `UploadIdNotFound`
(`src/data/uploads.rs` / `src/controllers/uploads.rs`). -/
def get_upload (store : Nat → Option Nat) (id : Nat) :
    Except RegistryHttpError Nat :=
  match store id with
  | none => Except.error (RegistryHttpError.UploadIdNotFound (toString id))
  | some last => Except.ok last

/-- C9: the sweep runs every 60 seconds with a 180-second maximum age;
after a sweep, every session idle longer than the maximum age is gone —
its temp file is deleted and a get of its id fails with
`UploadIdNotFound` — while every younger session and its temp file are
unaffected. -/
theorem prune_sweep_spec :
    ∀ (now : Nat) (store : Nat → Option Nat) (temp_file : Nat → Bool)
      (id last : Nat),
      store id = some last →
      ((now - last > UPLOAD_PRUNE_AGE →
          get_upload (prune now store) id
            = Except.error (RegistryHttpError.UploadIdNotFound (toString id))
          ∧ prune_temp_files now store temp_file id = false)
        ∧ (now - last ≤ UPLOAD_PRUNE_AGE →
            get_upload (prune now store) id = Except.ok last
            ∧ prune_temp_files now store temp_file id = temp_file id))
      ∧ UPLOAD_PRUNE_INTERVAL = 60 ∧ UPLOAD_PRUNE_AGE = 180 := by
  intro now store temp_file id last hid
  refine ⟨⟨?_, ?_⟩, rfl, rfl⟩
  · intro hold
    constructor
    · simp [get_upload, prune, hid, hold]
    · simp [prune_temp_files, hid, hold]
  · intro hyoung
    have hcond : ¬ (now - last > UPLOAD_PRUNE_AGE) := by omega
    constructor
    · simp [get_upload, prune, hid, hcond]
    · simp [prune_temp_files, hid, hcond]

/-- C9 witness: a sweep at time 400 over a two-session store — one last
active at 100 (age 300, pruned), one at 350 (age 50, kept). -/
theorem prune_sweep_spec_witness :
    ((fun id => if id = 1 then some 100 else if id = 2 then some 350 else none)
        : Nat → Option Nat) 1 = some 100
    ∧ ((400 - 100 > UPLOAD_PRUNE_AGE →
          get_upload
            (prune 400 (fun id => if id = 1 then some 100 else if id = 2 then some 350 else none)) 1
            = Except.error (RegistryHttpError.UploadIdNotFound (toString 1))
          ∧ prune_temp_files 400
              (fun id => if id = 1 then some 100 else if id = 2 then some 350 else none)
              (fun _ => true) 1 = false)
        ∧ (400 - 100 ≤ UPLOAD_PRUNE_AGE →
            get_upload
              (prune 400 (fun id => if id = 1 then some 100 else if id = 2 then some 350 else none)) 1
              = Except.ok 100
            ∧ prune_temp_files 400
                (fun id => if id = 1 then some 100 else if id = 2 then some 350 else none)
                (fun _ => true) 1 = true))
      ∧ UPLOAD_PRUNE_INTERVAL = 60 ∧ UPLOAD_PRUNE_AGE = 180 :=
  ⟨rfl,
   prune_sweep_spec 400
     (fun id => if id = 1 then some 100 else if id = 2 then some 350 else none)
     (fun _ => true) 1 100 rfl⟩
